import Mathlib

/-!
Verification development for the LMD internship-map application.

The definitions below are a shallow embedding of the TypeScript sources:
  * `src/src/services/dataService.ts` (persistent record store),
  * `src/src/App.tsx` (boot-time migration sequence and filter engine),
  * `src/src/components/CSVUpload.tsx` (CSV batch import),
  * `src/src/utils/profileUtils.ts` (id generation),
  * `src/src/services/mapsService.ts` (`isPittsburghArea`).

Modelling conventions:
  * JavaScript numbers used as minutes / ratings are modelled as `Int`;
    geographic coordinates are modelled as fixed-point integers in units of
    `1/10000` degree (the code only ever compares coordinate differences
    against the literal `0.01`, which is exactly representable there).
  * A field that the code tests with JavaScript truthiness (`!x`) and that
    legacy stored data may lack is modelled as an `Option`; the helpers
    `truthyStr`, `truthyNum` mirror JS truthiness (absent, `""` and `0` are
    falsy).
  * `localStorage` is modelled by `RawStore` (absent / corrupt / a decoded
    array) plus one boolean per migration-flag key.  `JSON.parse` failure and
    unavailable storage are the `corrupt` / `absent` constructors; the
    `try`/`catch` blocks of the code appear as total functions returning the
    fallback value.
  * `new Date().toISOString()` is modelled by an explicit `now : String`
    parameter (one instant per boot run); `Math.random`/`Date.now` inside id
    generation are explicit parameters as well.
  * An unchecked property access on a possibly-`undefined` value (the
    unguarded `coordinates.lat` in `initializeWithSampleData`) is modelled in
    the `Except Unit` monad: `.error ()` is the thrown `TypeError`, which the
    surrounding `try`/`catch` turns into a no-op.
-/

namespace InternshipMap

/-- Coordinate pair, `src/types/profile.ts` `Coordinates`.  Degrees are
represented in fixed-point units of `1/10000` degree (so `40.44` is
`404400`); the only arithmetic the code performs on coordinates is the
absolute-difference comparison against the literal `0.01`, which is `100`
in these units. -/
structure Coordinates where
  lat : Int
  lng : Int
deriving DecidableEq, Repr

/-- Structured address, `src/types/profile.ts` `InternshipAddress`. -/
structure InternshipAddress where
  street : String
  city : String
  state : String
  zip : String
  fullAddress : String
deriving DecidableEq, Repr

/-- Travel-time triple, `src/types/profile.ts` `TravelTime`; every component
is optional in the source. -/
structure TravelTime where
  driving : Option Int
  walking : Option Int
  bus : Option Int
deriving DecidableEq, Repr

/-- Stored profile record, `src/types/profile.ts` `StudentProfile`.  Fields
that the migrations probe with JS truthiness are `Option`s because legacy
stored data may lack them even when the TS type declares them required. -/
structure StudentProfile where
  id : String
  firstName : String
  lastName : String
  email : String
  internshipCompany : String
  field : String
  internshipContactName : String
  internshipSiteEmail : String
  isRemote : Bool
  internshipAddress : Option InternshipAddress
  coordinates : Option Coordinates
  startDate : Option String
  endDate : Option String
  question1_whatMadeUnique : Option String
  question2_meaningfulContribution : Option String
  question3_skillsLearned : Option String
  question4_mostSurprising : Option String
  question5_specificMoment : Option String
  question6_futureGoals : Option String
  travelTime : Option TravelTime
  rating : Option Int
  ratingComment : Option String
  photos : List String
  createdAt : String
  updatedAt : String
deriving DecidableEq, Repr

/-- JS truthiness of an optional string: absent and `""` are falsy. -/
def truthyStr : Option String → Bool
  | none => false
  | some s => s != ""

/-- JS truthiness of an optional number: absent and `0` are falsy. -/
def truthyNum : Option Int → Bool
  | none => false
  | some n => n != 0

/-- JS `a || b` on optional strings (`b` wins when `a` is falsy). -/
def jsOrStr (a b : Option String) : Option String :=
  if truthyStr a then a else b

/-- JS `a || b` on plain strings. -/
def jsOrS (a b : String) : String :=
  if a != "" then a else b

/-- JS `s.startsWith(pre)`: prefix test, via character lists (the byte-wise
`String.startsWith` of core Lean does not reduce in the kernel). -/
def jsStartsWith (s pre : String) : Bool :=
  pre.data.isPrefixOf s.data

/-- Executable infix test on character lists. -/
def charsInfix (sub : List Char) : List Char → Bool
  | [] => sub.isEmpty
  | c :: rest => sub.isPrefixOf (c :: rest) || charsInfix sub rest

/-- JS `s.includes(sub)`: substring containment. -/
def jsIncludes (s sub : String) : Bool :=
  charsInfix sub.data s.data

/-- ASCII lower-casing of one character (the strings the code lower-cases
are ASCII; core `Char.toLower` agrees on ASCII but `String.toLower` does
not reduce in the kernel). -/
def charToLower (c : Char) : Char :=
  if c.toNat ≥ 65 && c.toNat ≤ 90 then Char.ofNat (c.toNat + 32) else c

/-- JS `s.toLowerCase()`. -/
def jsToLower (s : String) : String :=
  String.mk (s.data.map charToLower)

/-- Whitespace predicate for `trim`. -/
def isJsSpace (c : Char) : Bool :=
  c == ' ' || c == '\t' || c == '\n' || c == '\r'

/-- JS `s.trim()`: strip whitespace from both ends. -/
def jsTrim (s : String) : String :=
  String.mk (((s.data.dropWhile isJsSpace).reverse.dropWhile isJsSpace).reverse)

/-- JS `s.split(",")[0]`: the prefix before the first comma (the whole
string when there is none). -/
def firstSplitComma (s : String) : String :=
  String.mk (s.data.takeWhile (fun c => c != ','))

/-- The raw content of the `internship_map_profiles` localStorage key:
absent, present but not valid JSON, or a decoded array. -/
inductive RawStore where
  | absent : RawStore
  | corrupt : RawStore
  | value : List StudentProfile → RawStore
deriving DecidableEq, Repr

/-- `getAllProfiles` (`dataService.ts` lines 8-19): returns the stored array;
an absent key or a `JSON.parse` failure (caught, logged) degrades to `[]`. -/
def getAllProfiles : RawStore → List StudentProfile
  | .absent => []
  | .corrupt => []
  | .value l => l

/-- Core of `saveProfile` (`dataService.ts` lines 37-63): upsert by `id` into
the stored array.  `findIndex` locates the first record with the same id; on
a hit the record is replaced by the argument with `updatedAt` refreshed to
`now`; on a miss the argument is pushed unchanged. -/
def saveProfileList (now : String) (profile : StudentProfile)
    (profiles : List StudentProfile) : List StudentProfile :=
  match profiles.findIdx? (fun p => p.id == profile.id) with
  | some i => profiles.set i { profile with updatedAt := now }
  | none => profiles ++ [profile]

/-- `saveProfile` with its failure semantics: when the underlying
`localStorage.setItem` throws (quota exhaustion etc.), the exception is
caught, the store is left unchanged and `false` is returned. -/
def saveProfile (writeFails : Bool) (now : String) (profile : StudentProfile)
    (profiles : List StudentProfile) : List StudentProfile × Bool :=
  if writeFails then (profiles, false)
  else (saveProfileList now profile profiles, true)

/-- Core of `deleteProfile` (`dataService.ts` lines 68-78): remove every
record whose id matches. -/
def deleteProfileList (id : String) (profiles : List StudentProfile) :
    List StudentProfile :=
  profiles.filter (fun p => p.id != id)

/-- `deleteProfile` with its failure semantics: a write failure is caught,
leaves the store unchanged and returns `false`; otherwise the filtered array
is written back and `true` is returned (whether or not anything matched). -/
def deleteProfile (writeFails : Bool) (id : String)
    (profiles : List StudentProfile) : List StudentProfile × Bool :=
  if writeFails then (profiles, false)
  else (deleteProfileList id profiles, true)

/-- Coordinate proximity used by every matching heuristic:
`Math.abs(a.lat - b.lat) < 0.01 && Math.abs(a.lng - b.lng) < 0.01`
(`0.01` degrees is `100` fixed-point units). -/
def coordClose (a b : Coordinates) : Bool :=
  (a.lat - b.lat).natAbs < 100 && (a.lng - b.lng).natAbs < 100

/-- Find the first list element on which an exception-throwing predicate
holds, propagating the exception (models `Array.prototype.find` with a
predicate that can throw). -/
def findSomeE (p : α → Except Unit Bool) : List α → Except Unit (Option α)
  | [] => .ok none
  | x :: xs =>
    match p x with
    | .error e => .error e
    | .ok true => .ok (some x)
    | .ok false => findSomeE p xs

/-- Effectful map, propagating the first exception (models
`Array.prototype.map` with a callback that can throw). -/
def mapE (f : α → Except Unit β) : List α → Except Unit (List β)
  | [] => .ok []
  | x :: xs =>
    match f x with
    | .error e => .error e
    | .ok y =>
      match mapE f xs with
      | .error e => .error e
      | .ok ys => .ok (y :: ys)

/-- Matching predicate of `initializeWithSampleData` (`dataService.ts` lines
98-104): id equality, else company equality combined with an UNGUARDED
access to `coordinates.lat` on both records — reading `lat` of an absent
coordinate object throws a `TypeError`, modelled as `.error ()`. -/
def dsMatchPred (profile s : StudentProfile) : Except Unit Bool :=
  if s.id == profile.id then .ok true
  else if s.internshipCompany == profile.internshipCompany then
    match s.coordinates, profile.coordinates with
    | some sc, some pc => .ok (coordClose sc pc)
    | _, _ => .error ()
  else .ok false

/-- Per-record reconciliation of `initializeWithSampleData`
(`dataService.ts` lines 91-123): a record that looks like a sample record
(reserved id prefix, or any sample shares its company name) is matched
against the sample set, and each of travel-time / rating / rating-comment is
copied from the match only when falsy on the stored record and truthy on the
match. -/
def reconcileOne (samples : List StudentProfile) (profile : StudentProfile) :
    Except Unit StudentProfile :=
  let isSampleProfile := jsStartsWith profile.id "sample_" ||
    samples.any (fun s => s.internshipCompany == profile.internshipCompany)
  if isSampleProfile then
    match findSomeE (dsMatchPred profile) samples with
    | .error e => .error e
    | .ok none => .ok profile
    | .ok (some s) =>
      let p1 := if profile.travelTime.isNone && s.travelTime.isSome then
          { profile with travelTime := s.travelTime } else profile
      let p2 := if !truthyNum profile.rating && truthyNum s.rating then
          { p1 with rating := s.rating } else p1
      let p3 := if !truthyStr profile.ratingComment && truthyStr s.ratingComment then
          { p2 with ratingComment := s.ratingComment } else p2
      .ok p3
  else .ok profile

/-- `initializeWithSampleData` (`dataService.ts` lines 84-129).  On an empty
(or unreadable) store the sample set is written verbatim; otherwise every
stored record is reconciled per `reconcileOne` and the result written back.
A thrown `TypeError` is caught by the surrounding `try`/`catch`, leaving the
store unchanged. -/
def initializeWithSampleData (samples : List StudentProfile)
    (raw : RawStore) : List StudentProfile :=
  let existing := getAllProfiles raw
  if existing.isEmpty then samples
  else
    match mapE (reconcileOne samples) existing with
    | .ok updated => updated
    | .error _ => existing

/-! ### Filter engine (`App.tsx` lines 327-382) -/

/-- Location-type filter selection. -/
inductive LocationType where
  | all : LocationType
  | physical : LocationType
  | remote : LocationType
deriving DecidableEq, Repr

/-- Travel-mode filter selection. -/
inductive FilterType where
  | all : FilterType
  | driving : FilterType
  | walking : FilterType
  | bus : FilterType
deriving DecidableEq, Repr

/-- The travel-time component selected by a (non-`all`) filter type. -/
def selectedTravelTime (ft : FilterType) (tt : TravelTime) : Option Int :=
  match ft with
  | .driving => tt.driving
  | .walking => tt.walking
  | _ => tt.bus

/-- Filter recomputation (`App.tsx` lines 327-382).  Returns the pair
(map-eligible physical profiles, list-eligible remote profiles). -/
def filterProfiles (profiles : List StudentProfile)
    (locationType : LocationType) (filterType : FilterType)
    (filterTime : Int) (selectedFields : List String) :
    List StudentProfile × List StudentProfile :=
  let allRemoteProfiles := profiles.filter (fun p => p.isRemote)
  let physical0 := profiles.filter (fun p => !p.isRemote)
  let physical1 := if locationType = .remote then [] else physical0
  let physical2 :=
    if filterType ≠ .all then
      physical1.filter (fun p =>
        match p.travelTime with
        | none => false
        | some tt =>
          match selectedTravelTime filterType tt with
          | none => false
          | some t => t > 0 && t ≤ filterTime)
    else physical1
  let physical3 :=
    if selectedFields.length > 0 then
      physical2.filter (fun p => selectedFields.contains p.field)
    else physical2
  let remote1 := if locationType = .physical then [] else allRemoteProfiles
  let remote2 :=
    if selectedFields.length > 0 then
      remote1.filter (fun p => selectedFields.contains p.field)
    else remote1
  (physical3, remote2)

/-! ### Boot-time migration engine (`App.tsx` lines 44-308) -/

/-- Matcher used by the travel-time, rating and questions migrations
(`App.tsx` lines 104-113 etc.): exact id match first, else company equality
with both coordinate objects present and within `0.01` on both axes (the
coordinate accesses are guarded here, unlike in `dataService.ts`). -/
def appFindMatch (samples : List StudentProfile) (p : StudentProfile) :
    Option StudentProfile :=
  match samples.find? (fun s => s.id == p.id) with
  | some s => some s
  | none =>
    samples.find? (fun s =>
      s.internshipCompany == p.internshipCompany &&
      (match s.coordinates, p.coordinates with
       | some sc, some pc => coordClose sc pc
       | _, _ => false))

/-- All three travel-time components present and equal to `0`
(`p.travelTime.driving === 0 && p.travelTime.walking === 0 &&
p.travelTime.bus === 0`). -/
def travelTimeAllZero (tt : TravelTime) : Bool :=
  tt.driving == some 0 && tt.walking == some 0 && tt.bus == some 0

/-- Self-healing trigger of the travel-time migration (`App.tsx` line 101):
the record lacks a travel-time object, or has an all-zero one. -/
def travelNeedsData (p : StudentProfile) : Bool :=
  match p.travelTime with
  | none => true
  | some tt => travelTimeAllZero tt

/-- Travel-time migration, per record (`App.tsx` lines 102-121): when a
sample match exists and carries a travel-time object, the record's
travel-time is replaced WHOLESALE by the match's (no missing-field check)
and the record is persisted.  The boolean reports whether a save happened. -/
def travelOne (samples : List StudentProfile) (p : StudentProfile) :
    StudentProfile × Bool :=
  match appFindMatch samples p with
  | some s =>
    match s.travelTime with
    | some tt => ({ p with travelTime := some tt }, true)
    | none => (p, false)
  | none => (p, false)

/-- Rating migration, per record (`App.tsx` lines 129-152): when a sample
match exists and the record lacks rating OR rating-comment, BOTH fields are
set from the match and the record is persisted. -/
def ratingOne (samples : List StudentProfile) (p : StudentProfile) :
    StudentProfile × Bool :=
  match appFindMatch samples p with
  | some s =>
    if !truthyNum p.rating || !truthyStr p.ratingComment then
      ({ p with rating := s.rating, ratingComment := s.ratingComment }, true)
    else (p, false)
  | none => (p, false)

/-- Trigger of the questions/dates migration (`App.tsx` lines 162-168): one
of the three required narrative answers or either date is falsy. -/
def questionsMissing (p : StudentProfile) : Bool :=
  !truthyStr p.question1_whatMadeUnique ||
  !truthyStr p.question2_meaningfulContribution ||
  !truthyStr p.question3_skillsLearned ||
  !truthyStr p.startDate || !truthyStr p.endDate

/-- Environment of one boot run: the clock instant used for every
`updatedAt` refresh during the run, and the two date strings synthesized by
`generateDummyData` (start defaulted to 90 days before now, end 120 days
after the chosen start).  The exact date arithmetic on ISO strings is kept
abstract. -/
structure Env where
  now : String
  dummyStartDate : String
  dummyEndDateOf : String → String

/-- Placeholder text for question 1, keyed on lower-cased field keywords
(`App.tsx` lines 179-193).  The branch structure is the source's; the spec
(section 4.2) fixes only the keyword categories and that the produced text
is non-empty and deterministic, so the long literals are abbreviated to
their first clause here. -/
def questionText1 (f : String) : String :=
  if jsIncludes f "library" || jsIncludes f "education" then
    "I expected it to be more traditional, but it was actually really dynamic!"
  else if jsIncludes f "health" || jsIncludes f "therapy" || jsIncludes f "veterinary" then
    "I thought I would just be shadowing, but I actually got to assist with real procedures."
  else if jsIncludes f "art" || jsIncludes f "writing" || jsIncludes f "podcast" then
    "I expected to just learn technical skills, but I got to work on real projects!"
  else if jsIncludes f "tech" || jsIncludes f "coding" || jsIncludes f "robotics" then
    "I expected to just learn programming, but I got to work on real projects that actually get used!"
  else if jsIncludes f "remote" || jsIncludes f "consulting" then
    "I expected remote work to be isolating, but the team had daily check-ins and virtual meetings."
  else
    "I expected it to be more structured, but I got to work on real projects and see actual results."

/-- Placeholder text for question 2 (`App.tsx` lines 195-209), abbreviated
as for `questionText1`. -/
def questionText2 (f : String) : String :=
  if jsIncludes f "library" || jsIncludes f "education" then
    "I created a new system for organizing resources."
  else if jsIncludes f "health" || jsIncludes f "therapy" || jsIncludes f "veterinary" then
    "I helped develop a new system for tracking patient information that reduced errors."
  else if jsIncludes f "art" || jsIncludes f "writing" || jsIncludes f "podcast" then
    "I produced a project that got published or broadcast."
  else if jsIncludes f "tech" || jsIncludes f "coding" || jsIncludes f "robotics" then
    "I programmed a feature that helped improve efficiency."
  else if jsIncludes f "remote" || jsIncludes f "consulting" then
    "I built a tool that streamlined the workflow of the team."
  else
    "I helped create a project that is now being used by the organization."

/-- Placeholder text for question 3 (`App.tsx` lines 211-225), abbreviated
as for `questionText1`. -/
def questionText3 (f : String) : String :=
  if jsIncludes f "library" || jsIncludes f "education" then
    "I learned how to work with diverse groups of people, manage programs, and engage communities."
  else if jsIncludes f "health" || jsIncludes f "therapy" || jsIncludes f "veterinary" then
    "I learned how to read charts, understand terminology, and see how care actually works."
  else if jsIncludes f "art" || jsIncludes f "writing" || jsIncludes f "podcast" then
    "I learned technical skills like editing and production, and how to tell stories."
  else if jsIncludes f "tech" || jsIncludes f "coding" || jsIncludes f "robotics" then
    "I learned programming and technical skills, and how to debug complex systems."
  else if jsIncludes f "remote" || jsIncludes f "consulting" then
    "I learned time management, self-discipline, and how to communicate in a remote environment."
  else
    "I learned practical skills and how to use tools, and also problem-solving."

/-- Default text for optional question 4 (`App.tsx` line 233), abbreviated. -/
def defaultQuestion4 : String :=
  "How much goes on behind the scenes that I never knew about."

/-- Default text for optional question 5 (`App.tsx` line 234), abbreviated. -/
def defaultQuestion5 : String :=
  "When I saw the impact of my work firsthand."

/-- Default text for optional question 6 (`App.tsx` line 235), abbreviated. -/
def defaultQuestion6 : String :=
  "This internship has influenced my career interests."

/-- `generateDummyData` (`App.tsx` lines 169-237) merged into the record:
dates defaulted from the environment, each question filled only when falsy
(`profile.questionN || text`), texts selected by lower-cased field
keywords. -/
def generateDummyData (env : Env) (p : StudentProfile) : StudentProfile :=
  let f := jsToLower p.field
  let startDate := jsOrStr p.startDate (some env.dummyStartDate)
  let startVal := startDate.getD ""
  let endDate := jsOrStr p.endDate (some (env.dummyEndDateOf startVal))
  { p with
    startDate := startDate
    endDate := endDate
    question1_whatMadeUnique :=
      jsOrStr p.question1_whatMadeUnique (some (questionText1 f))
    question2_meaningfulContribution :=
      jsOrStr p.question2_meaningfulContribution (some (questionText2 f))
    question3_skillsLearned :=
      jsOrStr p.question3_skillsLearned (some (questionText3 f))
    question4_mostSurprising :=
      jsOrStr p.question4_mostSurprising (some defaultQuestion4)
    question5_specificMoment :=
      jsOrStr p.question5_specificMoment (some defaultQuestion5)
    question6_futureGoals :=
      jsOrStr p.question6_futureGoals (some defaultQuestion6) }

/-- Questions/dates migration, per record (`App.tsx` lines 239-288): with a
sample match and a missing required field, missing fields (including the
optional questions) are filled from the match, non-destructively; without a
match, placeholder content is synthesized.  Present fields are kept in both
branches. -/
def questionsOne (env : Env) (samples : List StudentProfile)
    (p : StudentProfile) : StudentProfile × Bool :=
  match appFindMatch samples p with
  | some s =>
    if questionsMissing p then
      ({ p with
          startDate := jsOrStr p.startDate s.startDate
          endDate := jsOrStr p.endDate s.endDate
          question1_whatMadeUnique :=
            jsOrStr p.question1_whatMadeUnique s.question1_whatMadeUnique
          question2_meaningfulContribution :=
            jsOrStr p.question2_meaningfulContribution s.question2_meaningfulContribution
          question3_skillsLearned :=
            jsOrStr p.question3_skillsLearned s.question3_skillsLearned
          question4_mostSurprising :=
            jsOrStr p.question4_mostSurprising s.question4_mostSurprising
          question5_specificMoment :=
            jsOrStr p.question5_specificMoment s.question5_specificMoment
          question6_futureGoals :=
            jsOrStr p.question6_futureGoals s.question6_futureGoals }, true)
    else (p, false)
  | none =>
    if questionsMissing p then (generateDummyData env p, true) else (p, false)

/-- Run one per-record migration over the in-memory array, persisting each
record the step marks as saved (each save is one `saveProfile` call against
the store).  Returns the new in-memory array and the new stored array. -/
def runStep (stepOne : StudentProfile → StudentProfile × Bool) (now : String) :
    List StudentProfile → List StudentProfile →
    List StudentProfile × List StudentProfile
  | [], stored => ([], stored)
  | p :: rest, stored =>
    let r := stepOne p
    let stored1 := if r.2 then saveProfileList now r.1 stored else stored
    let next := runStep stepOne now rest stored1
    (r.1 :: next.1, next.2)

/-- Test-marker detection of the cleanup step (`App.tsx` lines 295-303). -/
def hasAsdf (p : StudentProfile) : Bool :=
  jsIncludes (jsToLower p.firstName) "asdf" || jsIncludes (jsToLower p.lastName) "asdf"

/-- Cleanup step (`App.tsx` lines 294-303): filter test-marker records out
of the in-memory array, deleting each from the store as a side effect. -/
def cleanupRun : List StudentProfile → List StudentProfile →
    List StudentProfile × List StudentProfile
  | [], stored => ([], stored)
  | p :: rest, stored =>
    if hasAsdf p then cleanupRun rest (deleteProfileList p.id stored)
    else
      let next := cleanupRun rest stored
      (p :: next.1, next.2)

/-- Reference-set replacement (`App.tsx` lines 62-72): strip every record
whose id carries the `sample_` prefix from the working array and re-append
the entire sample set. -/
def sampleReplacementStep (samples loaded : List StudentProfile) :
    List StudentProfile :=
  loaded.filter (fun p => !jsStartsWith p.id "sample_") ++ samples

/-- One boolean per persisted migration-flag key. -/
structure MigFlags where
  travel : Bool
  rating : Bool
  sampleV2 : Bool
  warhol : Bool
  remote : Bool
  questions : Bool
deriving DecidableEq, Repr

/-- All migration-flag keys absent (fresh browser). -/
def MigFlags.none : MigFlags :=
  { travel := false, rating := false, sampleV2 := false, warhol := false,
    remote := false, questions := false }

/-- Result of one boot run: the persisted array, the persisted flags, and
the in-memory array handed to `setProfiles`. -/
structure BootResult where
  stored : List StudentProfile
  flags : MigFlags
  memory : List StudentProfile
deriving DecidableEq, Repr

/-- The boot-time migration sequence (`App.tsx` lines 44-308), in source
order: seed/reconcile, reference-set replacement, remote-subset backfill,
anchor-record presence check, travel-time backfill, rating/comment backfill,
questions/dates backfill, cleanup.  Storage writes are modelled as
succeeding (`saveProfile` without quota failure). -/
def bootMigration (env : Env) (samples : List StudentProfile)
    (raw : RawStore) (flags : MigFlags) : BootResult :=
  let needsMigration := !flags.travel
  let needsRatingMigration := !flags.rating
  let needsSampleDataMigration := !flags.sampleV2
  let needsWarholMigration := !flags.warhol
  let stored1 := initializeWithSampleData samples raw
  let loaded1 := stored1
  let st2 :=
    if needsSampleDataMigration || needsWarholMigration then
      let allProfiles := sampleReplacementStep samples loaded1
      (allProfiles, allProfiles, { flags with sampleV2 := true, warhol := true })
    else (stored1, loaded1, flags)
  let stored2 := st2.1; let loaded2 := st2.2.1; let flags2 := st2.2.2
  let needsRemoteMigration := !flags2.remote
  let st3 :=
    if needsRemoteMigration then
      let remoteSamples := samples.filter (fun p => p.isRemote)
      let existingRemoteIds := (loaded2.filter (fun p => p.isRemote)).map (fun p => p.id)
      let newRemoteProfiles :=
        remoteSamples.filter (fun p => !existingRemoteIds.contains p.id)
      if newRemoteProfiles.length > 0 then
        (newRemoteProfiles.foldl (fun st p => saveProfileList env.now p st) stored2,
         loaded2 ++ newRemoteProfiles,
         { flags2 with remote := true })
      else (stored2, loaded2, flags2)
    else (stored2, loaded2, flags2)
  let stored3 := st3.1; let loaded3 := st3.2.1; let flags3 := st3.2.2
  let hasWarhol := loaded3.any (fun p =>
    p.internshipCompany == "Andy Warhol Museum" || p.id == "sample_9")
  let st4 :=
    if !hasWarhol then
      match samples.find? (fun p => p.id == "sample_9") with
      | some w => (saveProfileList env.now w stored3, loaded3 ++ [w])
      | none => (stored3, loaded3)
    else (stored3, loaded3)
  let stored4 := st4.1; let loaded4 := st4.2
  let st5 :=
    if needsMigration || loaded4.any travelNeedsData then
      let r := runStep (travelOne samples) env.now loaded4 stored4
      (r.1, r.2, { flags3 with travel := true })
    else (loaded4, stored4, flags3)
  let loaded5 := st5.1; let stored5 := st5.2.1; let flags5 := st5.2.2
  let st6 :=
    if needsRatingMigration ||
        loaded5.any (fun p => !truthyNum p.rating || !truthyStr p.ratingComment) then
      let r := runStep (ratingOne samples) env.now loaded5 stored5
      (r.1, r.2, { flags5 with rating := true })
    else (loaded5, stored5, flags5)
  let loaded6 := st6.1; let stored6 := st6.2.1; let flags6 := st6.2.2
  let needsQuestionsMigration := !flags6.questions
  let st7 :=
    if needsQuestionsMigration || loaded6.any questionsMissing then
      let r := runStep (questionsOne env samples) env.now loaded6 stored6
      (r.1, r.2, { flags6 with questions := true })
    else (loaded6, stored6, flags6)
  let loaded7 := st7.1; let stored7 := st7.2.1; let flags7 := st7.2.2
  let final := cleanupRun loaded7 stored7
  { stored := final.2, flags := flags7, memory := final.1 }

/-- `generateProfileId` (`profileUtils.ts` lines 6-8): the current epoch
milliseconds and the random base-36 suffix are explicit parameters. -/
def generateProfileId (timestamp : Nat) (randomSuffix : String) : String :=
  "profile_" ++ toString timestamp ++ "_" ++ randomSuffix

/-! ### CSV batch import (`CSVUpload.tsx` lines 49-263) -/

/-- JS `parseInt(s, 10)`: skip leading/trailing whitespace (callers trim),
optional sign, then the longest digit prefix; no digits gives `NaN`,
modelled as `none`. -/
def jsParseInt (s : String) : Option Int :=
  let core : List Char → Option Nat := fun cs =>
    let ds := cs.takeWhile Char.isDigit
    if ds.isEmpty then none
    else some (ds.foldl (fun a c => a * 10 + (c.toNat - 48)) 0)
  match (jsTrim s).data with
  | '-' :: rest => (core rest).map (fun n => -(n : Int))
  | '+' :: rest => (core rest).map (fun n => (n : Int))
  | cs => (core cs).map (fun n => (n : Int))

/-- `parseBoolean` (`CSVUpload.tsx` lines 103-106). -/
def parseBooleanJS (v : String) : Bool :=
  let lower := jsTrim (jsToLower v)
  lower == "yes" || lower == "true" || lower == "1" || lower == "y"

/-- `parseTravelTime` (`CSVUpload.tsx` lines 108-112): absent or blank gives
`undefined`, otherwise `parseInt` with `NaN` mapped to `undefined`. -/
def parseTravelTime (v : Option String) : Option Int :=
  match v with
  | none => none
  | some s => if jsTrim s == "" then none else jsParseInt (jsTrim s)

/-- `isPittsburghArea` (`mapsService.ts` lines 280-288). -/
def isPittsburghArea (a : InternshipAddress) : Bool :=
  ["pittsburgh", "pgh", "allegheny"].any (fun k =>
    jsIncludes (jsToLower a.fullAddress) k || jsIncludes (jsToLower a.city) k)

/-- The `replace(~^"|"$~g, ...)` applied to every parsed CSV cell: strip one
leading and one trailing double-quote character. -/
def stripEdgeQuotes (s : String) : String :=
  let d1 := match s.data with
    | '"' :: r => r
    | d => d
  let d2 := match d1.reverse with
    | '"' :: r => r.reverse
    | _ => d1
  String.mk d2

/-- A parsed CSV data row: the object built by `headers.forEach((header,
index) => row[header] = values[index] || ...)`, as an association list from
header name to cell text. -/
abbrev CSVRowObj : Type := List (String × String)

/-- JS property read `row[key]`: `none` models `undefined`. -/
def rowGet (row : CSVRowObj) (key : String) : Option String :=
  (row.find? (fun kv => kv.1 == key)).map Prod.snd

/-- JS falsiness of a property read (`!row.x`): absent or empty. -/
def optFalsy (o : Option String) : Bool :=
  match o with
  | none => true
  | some s => s == ""

/-- Row-object construction of `parseCSV` (`CSVUpload.tsx` lines 86-98):
header cells are quote-stripped, trimmed and LOWER-CASED; each data cell is
quote-stripped and trimmed and assigned under the lower-cased header name
(missing cells become the empty string). -/
def buildRows (headerCells : List String) (dataLines : List (List String)) :
    List CSVRowObj :=
  let headers := headerCells.map (fun h => jsToLower (jsTrim (stripEdgeQuotes h)))
  dataLines.map (fun values =>
    let vs := values.map (fun v => jsTrim (stripEdgeQuotes v))
    headers.enum.map (fun iv => (iv.2, vs.getD iv.1 "")))

/-- `row.x?.trim() || undefined` (optional questions). -/
def optTrimOrNone (o : Option String) : Option String :=
  match o with
  | none => none
  | some s => if jsTrim s == "" then none else some (jsTrim s)

/-- One iteration of the `handleFileUpload` row loop (`CSVUpload.tsx` lines
134-243), up to the `saveProfile` call: validates the row and builds the
profile (`createProfile` assigns the generated id and `now` timestamps), or
reports the row error.  `geo` models `await geocodeAddress` (`none` is a
geocoding failure, caught as a row error).  NOTE the property reads use the
exact (mostly camel-cased) keys of the source, while `buildRows` lower-cases
every header name. -/
def processCSVRow (geo : String → Option Coordinates) (newId now : String)
    (rowNumber : Nat) (row : CSVRowObj) : Except String StudentProfile :=
  let rowTag := "Row " ++ toString rowNumber ++ ": "
  if optFalsy (rowGet row "firstName") || optFalsy (rowGet row "lastName") ||
      optFalsy (rowGet row "email") || optFalsy (rowGet row "internshipCompany") ||
      optFalsy (rowGet row "field") || optFalsy (rowGet row "internshipContactName") ||
      optFalsy (rowGet row "internshipSiteEmail") || optFalsy (rowGet row "startDate") ||
      optFalsy (rowGet row "endDate") || optFalsy (rowGet row "rating") ||
      optFalsy (rowGet row "ratingComment") then
    .error (rowTag ++ "Missing required fields")
  else
    let q1raw := rowGet row "question1_whatmadeunique"
    let q2raw := rowGet row "question2_meaningfulcontribution"
    let q3raw := rowGet row "question3_skillslearned"
    let accRaw := rowGet row "accomplishments"
    let hasNewFormat := !optFalsy q1raw || !optFalsy q2raw || !optFalsy q3raw
    let hasLegacyFormat := !optFalsy accRaw
    if !hasNewFormat && !hasLegacyFormat then
      .error (rowTag ++ "Missing required questions (question1_whatMadeUnique, question2_meaningfulContribution, question3_skillsLearned) or accomplishments")
    else
      let accTrim := (accRaw.map jsTrim).getD ""
      let question1 := jsOrS ((q1raw.map jsTrim).getD "") (jsOrS accTrim "")
      let question2 := jsOrS ((q2raw.map jsTrim).getD "") (jsOrS accTrim "")
      let question3 := jsOrS ((q3raw.map jsTrim).getD "") (jsOrS accTrim "")
      if question1 == "" || question2 == "" || question3 == "" then
        .error (rowTag ++ "All three required questions must be provided")
      else
        let isRemote := parseBooleanJS (jsOrS ((rowGet row "isRemote").getD "") "no")
        match jsParseInt ((rowGet row "rating").getD "") with
        | none => .error (rowTag ++ "Rating must be between 1 and 5")
        | some rating =>
          if rating < 1 || rating > 5 then
            .error (rowTag ++ "Rating must be between 1 and 5")
          else
            let addrText := (rowGet row "address").getD ""
            let geoStep : Except String (Option (InternshipAddress × Coordinates)) :=
              if !isRemote then
                if optFalsy (rowGet row "address") then
                  .error (rowTag ++ "Address is required for non-remote internships")
                else
                  match geo addrText with
                  | none => .error (rowTag ++ "Could not geocode address: " ++ addrText)
                  | some coords =>
                    let address : InternshipAddress :=
                      { street := jsOrS (firstSplitComma addrText) addrText
                        city := "Pittsburgh"
                        state := "Pennsylvania"
                        zip := ""
                        fullAddress := addrText }
                    if !isPittsburghArea address then
                      .error (rowTag ++ "Address must be in Pittsburgh area")
                    else .ok (some (address, coords))
              else .ok none
            match geoStep with
            | .error e => .error e
            | .ok located =>
              let travelTime : Option TravelTime :=
                if isRemote then none
                else some
                  { driving := parseTravelTime (rowGet row "travelTimeDriving")
                    walking := parseTravelTime (rowGet row "travelTimeWalking")
                    bus := parseTravelTime (rowGet row "travelTimeBus") }
              let ttDriving := travelTime.bind (fun t => t.driving)
              let ttBus := travelTime.bind (fun t => t.bus)
              if !isRemote && (!truthyNum ttDriving && !truthyNum ttBus) then
                .error (rowTag ++ "At least one travel time (driving or bus) is required for non-remote internships")
              else
                .ok
                  { id := newId
                    firstName := jsTrim ((rowGet row "firstName").getD "")
                    lastName := jsTrim ((rowGet row "lastName").getD "")
                    email := jsTrim ((rowGet row "email").getD "")
                    internshipCompany := jsTrim ((rowGet row "internshipCompany").getD "")
                    field := jsTrim ((rowGet row "field").getD "")
                    internshipContactName := jsTrim ((rowGet row "internshipContactName").getD "")
                    internshipSiteEmail := jsTrim ((rowGet row "internshipSiteEmail").getD "")
                    isRemote := isRemote
                    internshipAddress := located.map Prod.fst
                    coordinates := located.map Prod.snd
                    startDate := some (jsTrim ((rowGet row "startDate").getD ""))
                    endDate := some (jsTrim ((rowGet row "endDate").getD ""))
                    question1_whatMadeUnique := some question1
                    question2_meaningfulContribution := some question2
                    question3_skillsLearned := some question3
                    question4_mostSurprising := optTrimOrNone (rowGet row "question4_mostsurprising")
                    question5_specificMoment := optTrimOrNone (rowGet row "question5_specificmoment")
                    question6_futureGoals := optTrimOrNone (rowGet row "question6_futuregoals")
                    travelTime := travelTime
                    rating := some rating
                    ratingComment := some (jsTrim ((rowGet row "ratingComment").getD ""))
                    photos := []
                    createdAt := now
                    updatedAt := now }

/-- The whole row loop: processes rows in order (row number `i + 2`),
collecting created profiles and per-row error strings, saving each created
profile to the store.  `mkId i` models the generated id of the row at index
`i`. -/
def processCSVRows (geo : String → Option Coordinates) (mkId : Nat → String)
    (now : String) : Nat → List CSVRowObj → List StudentProfile →
    List StudentProfile × List String × List StudentProfile
  | _, [], stored => ([], [], stored)
  | i, row :: rest, stored =>
    match processCSVRow geo (mkId i) now (i + 2) row with
    | .ok p =>
      let next := processCSVRows geo mkId now (i + 1) rest (saveProfileList now p stored)
      (p :: next.1, next.2.1, next.2.2)
    | .error e =>
      let next := processCSVRows geo mkId now (i + 1) rest stored
      (next.1, e :: next.2.1, next.2.2)

/-- End-to-end CSV batch import (`handleFileUpload`): build the row objects
from the header line and the data lines, then run the row loop on an
initial store. -/
def csvImport (geo : String → Option Coordinates) (mkId : Nat → String)
    (now : String) (headerCells : List String) (dataLines : List (List String))
    (stored : List StudentProfile) :
    List StudentProfile × List String × List StudentProfile :=
  processCSVRows geo mkId now 0 (buildRows headerCells dataLines) stored

/-! ### Reference dataset -/

/-- Modelled from the spec: the bundled Reference Dataset
(`src/data/sampleData.ts`, imported by `App.tsx` as `sampleProfiles`, is not
under `src/`).  Per the spec it is a fixed set of complete sample profiles
with the reserved `sample_` id prefix, including physical records carrying
coordinates and travel-time data, at least one remote record (no address,
no coordinates, no travel time), and the anchor record `sample_9` for the
Andy Warhol Museum.  Three representative records are used. -/
def sampleProfile1 : StudentProfile :=
  { id := "sample_1"
    firstName := "Maya"
    lastName := "Lopez"
    email := "maya@example.com"
    internshipCompany := "Carnegie Library"
    field := "library science"
    internshipContactName := "Alex Smith"
    internshipSiteEmail := "info@library.org"
    isRemote := false
    internshipAddress := some
      { street := "4400 Forbes Ave", city := "Pittsburgh",
        state := "Pennsylvania", zip := "15213",
        fullAddress := "4400 Forbes Ave, Pittsburgh, PA 15213" }
    coordinates := some { lat := 404400, lng := -799500 }
    startDate := some "2024-01-08"
    endDate := some "2024-05-03"
    question1_whatMadeUnique := some "The community programs surprised me."
    question2_meaningfulContribution := some "I built a resource catalog."
    question3_skillsLearned := some "Patience and communication."
    question4_mostSurprising := some "How much happens behind the scenes."
    question5_specificMoment := some "Running my first story hour."
    question6_futureGoals := some "I now consider library science."
    travelTime := some { driving := some 25, walking := some 60, bus := some 40 }
    rating := some 5
    ratingComment := some "Great mentorship"
    photos := []
    createdAt := "2024-01-01T00:00:00.000Z"
    updatedAt := "2024-01-01T00:00:00.000Z" }

/-- Modelled from the spec: the anchor reference record (`sample_9`, Andy
Warhol Museum), whose presence the boot migration re-verifies. -/
def sampleProfile9 : StudentProfile :=
  { id := "sample_9"
    firstName := "Jordan"
    lastName := "Reyes"
    email := "jordan@example.com"
    internshipCompany := "Andy Warhol Museum"
    field := "art"
    internshipContactName := "Sam Doe"
    internshipSiteEmail := "info@warhol.org"
    isRemote := false
    internshipAddress := some
      { street := "117 Sandusky St", city := "Pittsburgh",
        state := "Pennsylvania", zip := "15212",
        fullAddress := "117 Sandusky St, Pittsburgh, PA 15212" }
    coordinates := some { lat := 404500, lng := -800000 }
    startDate := some "2024-02-01"
    endDate := some "2024-06-01"
    question1_whatMadeUnique := some "Working next to real artworks."
    question2_meaningfulContribution := some "I helped mount an exhibit."
    question3_skillsLearned := some "Curation and handling."
    question4_mostSurprising := some "The archive is enormous."
    question5_specificMoment := some "Opening night of the exhibit."
    question6_futureGoals := some "I want to study museum work."
    travelTime := some { driving := some 15, walking := some 45, bus := some 30 }
    rating := some 4
    ratingComment := some "Creative environment"
    photos := []
    createdAt := "2024-01-01T00:00:00.000Z"
    updatedAt := "2024-01-01T00:00:00.000Z" }

/-- Modelled from the spec: a remote reference record (no address, no
coordinates, no travel-time triple). -/
def sampleProfile10 : StudentProfile :=
  { id := "sample_10"
    firstName := "Riley"
    lastName := "Chen"
    email := "riley@example.com"
    internshipCompany := "Remote Consulting Co"
    field := "consulting"
    internshipContactName := "Pat Jones"
    internshipSiteEmail := "hello@remoteco.com"
    isRemote := true
    internshipAddress := none
    coordinates := none
    startDate := some "2024-03-01"
    endDate := some "2024-07-01"
    question1_whatMadeUnique := some "Daily check-ins kept us close."
    question2_meaningfulContribution := some "I streamlined the workflow."
    question3_skillsLearned := some "Self-discipline and remote communication."
    question4_mostSurprising := some "How global the team is."
    question5_specificMoment := some "Presenting to the whole company."
    question6_futureGoals := some "I am considering consulting."
    travelTime := none
    rating := some 4
    ratingComment := some "Flexible"
    photos := []
    createdAt := "2024-01-01T00:00:00.000Z"
    updatedAt := "2024-01-01T00:00:00.000Z" }

/-- Modelled from the spec: the `sampleProfiles` array exported by the
missing `src/data/sampleData.ts`. -/
def sampleProfiles : List StudentProfile :=
  [sampleProfile1, sampleProfile9, sampleProfile10]

/-! ### Concrete fixtures used by the theorems below -/

/-- A fixed boot environment (one clock instant and the two synthesized
date strings). -/
def testEnv : Env :=
  { now := "2024-06-01T00:00:00.000Z", dummyStartDate := "2024-03-03",
    dummyEndDateOf := fun _ => "2024-07-01" }

/-- A complete user-submitted record (generated-style id, company matching
no reference record). -/
def userProfileA : StudentProfile :=
  { sampleProfile1 with
    id := "profile_1700000000000_abc", firstName := "Uma", lastName := "Stone",
    email := "uma@x.com", internshipCompany := "User Co" }

/-- A stored record matching `sampleProfile1` by company + coordinates but
missing rating and rating comment. -/
def pMissingRating : StudentProfile :=
  { userProfileA with
    internshipCompany := "Carnegie Library", rating := none, ratingComment := none }

/-- A stored record matching `sampleProfile1` by company + coordinates,
missing only the rating (the comment is present). -/
def pKeepComment : StudentProfile :=
  { userProfileA with internshipCompany := "Carnegie Library", rating := none }

/-- A stored record equal to `sampleProfile1` except for a present, non-zero
travel-time triple different from the sample's. -/
def travelClaimRecord : StudentProfile :=
  { sampleProfile1 with
    travelTime := some { driving := some 10, walking := some 10, bus := some 10 } }

/-- A stored record equal to `sampleProfile1` except that the rating is
absent while the rating comment is present (and different from the
sample's). -/
def commentClaimRecord : StudentProfile :=
  { sampleProfile1 with rating := none, ratingComment := some "my own words" }

/-- A stored copy of the remote reference record carrying the cleanup
test-marker in its first name. -/
def asdfRemote : StudentProfile :=
  { sampleProfile10 with firstName := "Asdf" }

/-- Migration flags as left by an install that predates the remote-subset
migration: every flag set except the remote one. -/
def migFlagsPartial : MigFlags :=
  { travel := true, rating := true, sampleV2 := true, warhol := true,
    remote := false, questions := true }

/-- A stored PHYSICAL record that carries the id of the remote reference
record `sample_10`. -/
def physWithRemoteId : StudentProfile :=
  { sampleProfile1 with id := "sample_10", internshipCompany := "Some Office" }

/-- A user record sharing its company name with the remote reference record
(which has no coordinates): evaluating the matching predicate of
`initializeWithSampleData` on this pair reads `coordinates.lat` of
`undefined` and throws. -/
def userClashRemote : StudentProfile :=
  { userProfileA with
    id := "profile_1700000000001_def",
    internshipCompany := "Remote Consulting Co" }

/-- CSV header cells in the camel-cased format the component's own UI text
prescribes. -/
def csvHeaderCells : List String :=
  ["firstName", "lastName", "email", "internshipCompany", "field",
   "internshipContactName", "internshipSiteEmail", "isRemote", "startDate",
   "endDate", "address", "travelTimeDriving", "travelTimeWalking",
   "travelTimeBus", "question1_whatMadeUnique",
   "question2_meaningfulContribution", "question3_skillsLearned", "rating",
   "ratingComment"]

/-- The property keys the row loop actually reads: camel-cased for every
ordinary column but lower-cased for the question columns.  Zipping these
with the data rows builds the row object the loop logic expects, bypassing
the header lower-casing of `parseCSV`. -/
def csvLoopKeys : List String :=
  ["firstName", "lastName", "email", "internshipCompany", "field",
   "internshipContactName", "internshipSiteEmail", "isRemote", "startDate",
   "endDate", "address", "travelTimeDriving", "travelTimeWalking",
   "travelTimeBus", "question1_whatmadeunique",
   "question2_meaningfulcontribution", "question3_skillslearned", "rating",
   "ratingComment"]

/-- CSV data row A: a valid remote-internship row. -/
def csvRowA : List String :=
  ["Ann", "Lee", "ann@x.com", "CoA", "coding", "Mgr A", "a@co.com", "yes",
   "2024-01-01", "2024-05-01", "", "", "", "", "Unique A", "Contribution A",
   "Skills A", "5", "Nice"]

/-- CSV data row B: identical in shape to row A but with the `email` cell
empty. -/
def csvRowB : List String :=
  ["Bob", "Kim", "", "CoB", "art", "Mgr B", "b@co.com", "yes",
   "2024-01-01", "2024-05-01", "", "", "", "", "Unique B", "Contribution B",
   "Skills B", "4", "Good"]

/-- CSV data row C: another valid remote-internship row. -/
def csvRowC : List String :=
  ["Cal", "Paz", "cal@x.com", "CoC", "podcasting", "Mgr C", "c@co.com", "yes",
   "2024-01-01", "2024-05-01", "", "", "", "", "Unique C", "Contribution C",
   "Skills C", "3", "Fine"]

/-! ### Shared helper lemmas -/

/-- Per-record seed reconciliation never overwrites a truthy rating comment,
rating, or present travel-time object. -/
theorem reconcileOne_preserves (samples : List StudentProfile)
    (p p' : StudentProfile) (h : reconcileOne samples p = .ok p') :
    (truthyStr p.ratingComment = true → p'.ratingComment = p.ratingComment) ∧
    (truthyNum p.rating = true → p'.rating = p.rating) ∧
    (p.travelTime.isSome = true → p'.travelTime = p.travelTime) := by
  simp only [reconcileOne] at h
  split at h
  · split at h
    · exact absurd h (by simp)
    · cases h; exact ⟨fun _ => rfl, fun _ => rfl, fun _ => rfl⟩
    · rename_i s _
      cases h
      refine ⟨fun htr => ?_, fun htr => ?_, fun htr => ?_⟩ <;>
        (split <;> split <;> split) <;> simp_all
  · cases h; exact ⟨fun _ => rfl, fun _ => rfl, fun _ => rfl⟩

/-- Per-record seed reconciliation copies each falsy field from the matched
reference record when the match carries a truthy value for it. -/
theorem reconcileOne_copies (samples : List StudentProfile)
    (p s p' : StudentProfile) (h : reconcileOne samples p = .ok p')
    (hsample : (jsStartsWith p.id "sample_" ||
      samples.any (fun s => s.internshipCompany == p.internshipCompany)) = true)
    (hfind : findSomeE (dsMatchPred p) samples = .ok (some s)) :
    (p.travelTime = none → s.travelTime.isSome = true → p'.travelTime = s.travelTime) ∧
    (truthyNum p.rating = false → truthyNum s.rating = true → p'.rating = s.rating) ∧
    (truthyStr p.ratingComment = false → truthyStr s.ratingComment = true →
      p'.ratingComment = s.ratingComment) := by
  simp only [reconcileOne, hsample, if_pos, hfind] at h
  cases h
  refine ⟨fun h1 h2 => ?_, fun h1 h2 => ?_, fun h1 h2 => ?_⟩ <;>
    (split <;> split <;> split) <;> simp_all

/-- A successful effectful map preserves length and relates the entries
pointwise. -/
theorem mapE_ok_nth (f : α → Except Unit β) :
    ∀ (l : List α) (out : List β), mapE f l = .ok out →
      out.length = l.length ∧
      ∀ (i : Nat) x, l[i]? = some x → ∃ y, out[i]? = some y ∧ f x = .ok y := by
  intro l
  induction l with
  | nil => intro out h; simp [mapE] at h; subst h; simp
  | cons a as ih =>
    intro out h
    simp only [mapE] at h
    cases hfa : f a with
    | error e => rw [hfa] at h; exact absurd h (by simp)
    | ok y =>
      rw [hfa] at h
      cases hrest : mapE f as with
      | error e => rw [hrest] at h; exact absurd h (by simp)
      | ok ys =>
        rw [hrest] at h
        cases h
        obtain ⟨hlen, hnth⟩ := ih ys hrest
        refine ⟨by simp [hlen], ?_⟩
        intro i x hx
        cases i with
        | zero => simp at hx; subst hx; exact ⟨y, by simp, hfa⟩
        | succ n =>
          simp only [List.getElem?_cons_succ] at hx ⊢
          exact hnth n x hx

/-! ### Claim theorems -/

/-- C7: `getAllProfiles` returns the full stored array, and degrades to the
empty sequence when the storage key is absent or the stored value fails to
parse; the function is total (the `try`/`catch` of the source surfaces
failures only as console diagnostics, never as an exception). -/
theorem getAllProfiles_defensive :
    getAllProfiles .absent = [] ∧ getAllProfiles .corrupt = [] ∧
    ∀ l, getAllProfiles (.value l) = l :=
  ⟨rfl, rfl, fun _ => rfl⟩

/-- C10: `deleteProfile` called with an id present on no stored record still
returns `true` and leaves the stored array value-equal to what it was; it
returns `false` (with the store unchanged) exactly when the write-back
fails. -/
theorem deleteProfile_noMatch (id : String) (l : List StudentProfile)
    (h : ∀ p ∈ l, p.id ≠ id) :
    deleteProfile false id l = (l, true) ∧ deleteProfile true id l = (l, false) := by
  refine ⟨?_, rfl⟩
  have hf : l.filter (fun p => p.id != id) = l :=
    List.filter_eq_self.mpr (fun a ha => by simpa using h a ha)
  simp [deleteProfile, deleteProfileList, hf]

/-- Witness for C10 at a concrete store and id. -/
theorem deleteProfile_noMatch_witness :
    deleteProfile false "user_1" [sampleProfile1] = ([sampleProfile1], true) ∧
    deleteProfile true "user_1" [sampleProfile1] = ([sampleProfile1], false) :=
  deleteProfile_noMatch "user_1" [sampleProfile1] (by decide)

/-- C3: `saveProfile` is an upsert by id: with no id match the profile is
appended unchanged (its own timestamps preserved); with a match, the first
matching slot is replaced by the given profile with `updatedAt` refreshed
to the current instant (the caller-supplied `updatedAt` is overwritten);
and on a write failure it returns `false` with the store unchanged, never
throwing (the model is a total function). -/
theorem saveProfile_upsert :
    (∀ now p l, (∀ q ∈ l, q.id ≠ p.id) →
      saveProfile false now p l = (l ++ [p], true)) ∧
    (∀ now p l (i : Nat) q, l[i]? = some q → q.id = p.id →
      (∀ j, j < i → ∀ r, l[j]? = some r → r.id ≠ p.id) →
      saveProfile false now p l = (l.set i { p with updatedAt := now }, true)) ∧
    (∀ now p l, saveProfile true now p l = (l, false)) := by
  refine ⟨?_, ?_, fun now p l => rfl⟩
  · intro now p l h
    have hidx : l.findIdx? (fun q => q.id == p.id) = none :=
      List.findIdx?_eq_none_iff.mpr (fun x hx => by simpa using h x hx)
    simp [saveProfile, saveProfileList, hidx]
  · intro now p l i q hget hid hmin
    obtain ⟨hi, hgi⟩ := List.getElem?_eq_some_iff.mp hget
    have hidx : l.findIdx? (fun r => r.id == p.id) = some i := by
      refine List.findIdx?_eq_some_iff_getElem.mpr ⟨hi, ?_, ?_⟩
      · simp [hgi, hid]
      · intro j hji
        have hj : j < l.length := lt_trans hji hi
        have := hmin j hji (l[j]) (List.getElem?_eq_some_iff.mpr ⟨hj, rfl⟩)
        simpa using this
    simp [saveProfile, saveProfileList, hidx]

/-- Witness for C3: append, in-place update with refreshed `updatedAt`, and
write failure, at concrete inputs. -/
theorem saveProfile_upsert_witness :
    saveProfile false "2024-06-02T00:00:00.000Z" userProfileA [sampleProfile1] =
      ([sampleProfile1, userProfileA], true) ∧
    saveProfile false "2024-06-02T00:00:00.000Z" commentClaimRecord [sampleProfile1] =
      ([sampleProfile1].set 0
        { commentClaimRecord with updatedAt := "2024-06-02T00:00:00.000Z" }, true) ∧
    saveProfile true "2024-06-02T00:00:00.000Z" userProfileA [sampleProfile1] =
      ([sampleProfile1], false) :=
  ⟨saveProfile_upsert.1 "2024-06-02T00:00:00.000Z" userProfileA [sampleProfile1]
      (by decide),
   saveProfile_upsert.2.1 "2024-06-02T00:00:00.000Z" commentClaimRecord
      [sampleProfile1] 0 sampleProfile1 rfl rfl
      (fun j hj r _ => absurd hj (Nat.not_lt_zero j)),
   saveProfile_upsert.2.2 "2024-06-02T00:00:00.000Z" userProfileA [sampleProfile1]⟩

/-- C4 (amended): on an empty store the sample set is written verbatim; on
a non-empty store, WHEN the per-record matching pass throws no `TypeError`
(the `mapE ... = .ok` hypothesis), the written array is the per-record
reconciliation, which never overwrites a present travel-time / rating /
rating comment and copies each missing one from the found match; when the
pass throws, the store is left unchanged.  (The unguarded coordinate access
makes the no-throw hypothesis necessary: see the counterexample.) -/
theorem seedAndReconcile_spec :
    (∀ samples raw, getAllProfiles raw = [] →
      initializeWithSampleData samples raw = samples) ∧
    (∀ samples l updated, l ≠ [] → mapE (reconcileOne samples) l = .ok updated →
      initializeWithSampleData samples (.value l) = updated ∧
      updated.length = l.length ∧
      ∀ (i : Nat) x, l[i]? = some x →
        ∃ y, updated[i]? = some y ∧ reconcileOne samples x = .ok y) ∧
    (∀ samples l, mapE (reconcileOne samples) l = .error () →
      initializeWithSampleData samples (.value l) = l) ∧
    (∀ samples p p', reconcileOne samples p = .ok p' →
      (truthyStr p.ratingComment = true → p'.ratingComment = p.ratingComment) ∧
      (truthyNum p.rating = true → p'.rating = p.rating) ∧
      (p.travelTime.isSome = true → p'.travelTime = p.travelTime)) ∧
    (∀ samples p s p', reconcileOne samples p = .ok p' →
      (jsStartsWith p.id "sample_" ||
        samples.any (fun q => q.internshipCompany == p.internshipCompany)) = true →
      findSomeE (dsMatchPred p) samples = .ok (some s) →
      (p.travelTime = none → s.travelTime.isSome = true →
        p'.travelTime = s.travelTime) ∧
      (truthyNum p.rating = false → truthyNum s.rating = true →
        p'.rating = s.rating) ∧
      (truthyStr p.ratingComment = false → truthyStr s.ratingComment = true →
        p'.ratingComment = s.ratingComment)) := by
  refine ⟨?_, ?_, ?_, reconcileOne_preserves, reconcileOne_copies⟩
  · intro samples raw hempty
    simp [initializeWithSampleData, hempty]
  · intro samples l updated hne hmap
    obtain ⟨hlen, hnth⟩ := mapE_ok_nth (reconcileOne samples) l updated hmap
    refine ⟨?_, hlen, hnth⟩
    simp [initializeWithSampleData, getAllProfiles, hmap, hne]
  · intro samples l hmap
    cases l with
    | nil => exact absurd hmap (by simp [mapE])
    | cons a as => simp [initializeWithSampleData, getAllProfiles, hmap]

/-- Witness for C4: seeding an empty store, reconciling a store with one
record missing rating and comment (both copied from the company+coordinate
match), and comment preservation, at concrete inputs. -/
theorem seedAndReconcile_spec_witness :
    initializeWithSampleData sampleProfiles .absent = sampleProfiles ∧
    initializeWithSampleData sampleProfiles (.value [pMissingRating]) =
      [{ pMissingRating with
          rating := some 5, ratingComment := some "Great mentorship" }] ∧
    ({ pKeepComment with rating := some 5 } : StudentProfile).ratingComment =
      pKeepComment.ratingComment ∧
    ({ pMissingRating with
        rating := some 5, ratingComment := some "Great mentorship" }
      : StudentProfile).rating = sampleProfile1.rating :=
  ⟨seedAndReconcile_spec.1 sampleProfiles .absent rfl,
   (seedAndReconcile_spec.2.1 sampleProfiles [pMissingRating]
      [{ pMissingRating with
          rating := some 5, ratingComment := some "Great mentorship" }]
      (by decide) (by rfl)).1,
   (seedAndReconcile_spec.2.2.2.1 sampleProfiles pKeepComment
      { pKeepComment with rating := some 5 } (by rfl)).1 (by decide),
   (seedAndReconcile_spec.2.2.2.2 sampleProfiles pMissingRating sampleProfile1
      { pMissingRating with
          rating := some 5, ratingComment := some "Great mentorship" }
      (by rfl) (by decide) (by rfl)).2.1 (by decide) (by decide)⟩

/-- C4 counterexample: the matching pass of `initializeWithSampleData` reads
`coordinates.lat` without a guard; a stored record sharing its company name
with the (coordinate-less) remote reference record makes the whole pass
throw, so a DIFFERENT record that cleanly matches a reference record by
company + coordinates and lacks its rating does NOT receive the copy — the
store is written back unchanged, contradicting the claim's universal
"copies each ... if that field is missing". -/
theorem seedAndReconcile_abort_counterexample :
    initializeWithSampleData sampleProfiles
        (.value [pMissingRating, userClashRemote]) =
      [pMissingRating, userClashRemote] ∧
    findSomeE (dsMatchPred pMissingRating) sampleProfiles =
      .ok (some sampleProfile1) ∧
    pMissingRating.rating = none ∧ truthyNum sampleProfile1.rating = true :=
  ⟨by decide, by rfl, rfl, by decide⟩

/-- C5: with `locationType = physical`, `filterType = all` and no field
restriction the map-eligible set is exactly the physical subset in input
order; with `locationType = remote` the map-eligible set is empty and the
list-eligible set is the full remote subset, field-filtered when the field
set is non-empty. -/
theorem filterProfiles_composition :
    (∀ profiles t,
      filterProfiles profiles .physical .all t [] =
        (profiles.filter (fun p => !p.isRemote), [])) ∧
    (∀ profiles ft t fields,
      (filterProfiles profiles .remote ft t fields).1 = [] ∧
      (filterProfiles profiles .remote ft t fields).2 =
        (if fields.length > 0 then
          (profiles.filter (fun p => p.isRemote)).filter
            (fun p => fields.contains p.field)
        else profiles.filter (fun p => p.isRemote))) := by
  refine ⟨fun profiles t => ?_, fun profiles ft t fields => ⟨?_, ?_⟩⟩
  · simp [filterProfiles]
  · simp only [filterProfiles]
    split <;> simp
  · simp [filterProfiles]

/-- C6: with a travel-time filter mode selected, a physical record whose
value for the selected mode equals `filterTime` exactly is included (the
comparison is inclusive), and a physical record whose value for the
selected mode is absent or `0` (or that has no travel-time object) is
excluded regardless of `filterTime`. -/
theorem travelTimeFilter_boundary :
    (∀ profiles lt ft time fields p tt,
      ft ≠ FilterType.all → lt ≠ LocationType.remote →
      p ∈ profiles → p.isRemote = false →
      (fields = [] ∨ fields.contains p.field = true) →
      p.travelTime = some tt →
      selectedTravelTime ft tt = some time → 0 < time →
      p ∈ (filterProfiles profiles lt ft time fields).1) ∧
    (∀ profiles lt ft time fields p,
      ft ≠ FilterType.all →
      (p.travelTime = none ∨
        ∃ tt, p.travelTime = some tt ∧
          (selectedTravelTime ft tt = none ∨ selectedTravelTime ft tt = some 0)) →
      p ∉ (filterProfiles profiles lt ft time fields).1) := by
  constructor
  · intro profiles lt ft time fields p tt hft hlt hp hrem hfields htt hsel htpos
    simp only [filterProfiles]
    have h0 : p ∈ profiles.filter (fun p => !p.isRemote) :=
      List.mem_filter.mpr ⟨hp, by simp [hrem]⟩
    rw [if_neg hlt, if_pos hft]
    have h2 : p ∈ (profiles.filter (fun p => !p.isRemote)).filter (fun p =>
        match p.travelTime with
        | none => false
        | some tt =>
          match selectedTravelTime ft tt with
          | none => false
          | some t => t > 0 && t ≤ time) := by
      refine List.mem_filter.mpr ⟨h0, ?_⟩
      simp only [htt, hsel]
      simp [htpos]
    rcases hfields with hf | hf
    · subst hf; simpa using h2
    · by_cases hfe : fields.length > 0
      · rw [if_pos hfe]
        exact List.mem_filter.mpr ⟨h2, hf⟩
      · rw [if_neg hfe]; exact h2
  · intro profiles lt ft time fields p hft hbad hmem
    simp only [filterProfiles] at hmem
    rw [if_pos hft] at hmem
    have h2 : p ∈ (if lt = LocationType.remote then [] else
        profiles.filter (fun p => !p.isRemote)).filter (fun p =>
        match p.travelTime with
        | none => false
        | some tt =>
          match selectedTravelTime ft tt with
          | none => false
          | some t => t > 0 && t ≤ time) := by
      by_cases hfe : fields.length > 0
      · rw [if_pos hfe] at hmem; exact (List.mem_filter.mp hmem).1
      · rw [if_neg hfe] at hmem; exact hmem
    have hpred := (List.mem_filter.mp h2).2
    rcases hbad with hnone | ⟨tt, httw, hsel⟩
    · simp [hnone] at hpred
    · rcases hsel with hs | hs <;> simp [httw, hs] at hpred

/-- Witness for C6: `sampleProfile1` (driving = 25) is included at
`filterTime = 25`; a record with driving = 0 is excluded at a generous
`filterTime = 100`. -/
theorem travelTimeFilter_boundary_witness :
    sampleProfile1 ∈ (filterProfiles sampleProfiles .all .driving 25 []).1 ∧
    { sampleProfile1 with
        travelTime := some { driving := some 0, walking := some 5, bus := some 5 } } ∉
      (filterProfiles
        [{ sampleProfile1 with
            travelTime := some { driving := some 0, walking := some 5, bus := some 5 } }]
        .all .driving 100 []).1 :=
  ⟨travelTimeFilter_boundary.1 sampleProfiles .all .driving 25 []
      sampleProfile1 { driving := some 25, walking := some 60, bus := some 40 }
      (by decide) (by decide) (by decide) rfl (Or.inl rfl) rfl rfl (by decide),
   travelTimeFilter_boundary.2 _ .all .driving 100 [] _ (by decide)
      (Or.inr ⟨{ driving := some 0, walking := some 5, bus := some 5 }, rfl,
        Or.inr rfl⟩)⟩

/-- C2 (amended): the questions/dates backfill never overwrites a present
narrative answer or date; the rating/comment backfill leaves a record
unchanged when BOTH rating and comment are present (when either is missing
it overwrites both from the match — see the counterexample); the
travel-time backfill leaves a record unchanged exactly when it has no
sample match carrying travel-time data (otherwise the triple is replaced
wholesale even when present — see the counterexample); and the
seed-reconcile step never overwrites present rating / comment /
travel-time. -/
theorem backfill_preservation_amended :
    (∀ env samples p,
      (truthyStr p.question1_whatMadeUnique = true →
        ((questionsOne env samples p).1).question1_whatMadeUnique =
          p.question1_whatMadeUnique) ∧
      (truthyStr p.question2_meaningfulContribution = true →
        ((questionsOne env samples p).1).question2_meaningfulContribution =
          p.question2_meaningfulContribution) ∧
      (truthyStr p.question3_skillsLearned = true →
        ((questionsOne env samples p).1).question3_skillsLearned =
          p.question3_skillsLearned) ∧
      (truthyStr p.question4_mostSurprising = true →
        ((questionsOne env samples p).1).question4_mostSurprising =
          p.question4_mostSurprising) ∧
      (truthyStr p.question5_specificMoment = true →
        ((questionsOne env samples p).1).question5_specificMoment =
          p.question5_specificMoment) ∧
      (truthyStr p.question6_futureGoals = true →
        ((questionsOne env samples p).1).question6_futureGoals =
          p.question6_futureGoals) ∧
      (truthyStr p.startDate = true →
        ((questionsOne env samples p).1).startDate = p.startDate) ∧
      (truthyStr p.endDate = true →
        ((questionsOne env samples p).1).endDate = p.endDate)) ∧
    (∀ samples p, truthyNum p.rating = true → truthyStr p.ratingComment = true →
      ratingOne samples p = (p, false)) ∧
    (∀ samples p, (appFindMatch samples p).bind (fun s => s.travelTime) = none →
      travelOne samples p = (p, false)) ∧
    (∀ samples p p', reconcileOne samples p = .ok p' →
      (truthyStr p.ratingComment = true → p'.ratingComment = p.ratingComment) ∧
      (truthyNum p.rating = true → p'.rating = p.rating) ∧
      (p.travelTime.isSome = true → p'.travelTime = p.travelTime)) := by
  refine ⟨?_, ?_, ?_, reconcileOne_preserves⟩
  · intro env samples p
    cases hm : appFindMatch samples p <;>
      simp only [questionsOne, hm] <;>
      split <;>
      refine ⟨fun h => ?_, fun h => ?_, fun h => ?_, fun h => ?_, fun h => ?_,
        fun h => ?_, fun h => ?_, fun h => ?_⟩ <;>
      first
      | rfl
      | simp [generateDummyData, jsOrStr, h]
  · intro samples p h1 h2
    cases hm : appFindMatch samples p with
    | none => simp only [ratingOne, hm]
    | some s => simp [ratingOne, hm, h1, h2]
  · intro samples p h
    cases hm : appFindMatch samples p with
    | none => simp only [travelOne, hm]
    | some s =>
      rw [hm] at h
      simp only [Option.bind] at h
      simp [travelOne, hm, h]

/-- Witness for C2 (amended) at concrete records: a complete record passes
the rating backfill untouched, an unmatched record passes the travel-time
backfill untouched, and a present narrative answer survives the questions
backfill. -/
theorem backfill_preservation_amended_witness :
    ((questionsOne testEnv sampleProfiles userProfileA).1).question1_whatMadeUnique =
      userProfileA.question1_whatMadeUnique ∧
    ratingOne sampleProfiles sampleProfile1 = (sampleProfile1, false) ∧
    travelOne sampleProfiles userProfileA = (userProfileA, false) :=
  ⟨(backfill_preservation_amended.1 testEnv sampleProfiles userProfileA).1
      (by decide),
   backfill_preservation_amended.2.1 sampleProfiles sampleProfile1
      (by decide) (by decide),
   backfill_preservation_amended.2.2.1 sampleProfiles userProfileA (by decide)⟩

/-- C2 counterexample: a record with a present non-zero travel-time triple
has it replaced wholesale by its sample match's triple, and a record with a
present rating comment but absent rating has its comment overwritten by the
match's — both contradicting the claim that present fields are left
unchanged by the corresponding backfill step. -/
theorem backfill_overwrite_counterexample :
    (travelOne sampleProfiles travelClaimRecord).1.travelTime ≠
      travelClaimRecord.travelTime ∧
    (ratingOne sampleProfiles commentClaimRecord).1.ratingComment ≠
      commentClaimRecord.ratingComment ∧
    ((runStep (travelOne sampleProfiles) testEnv.now
        [travelClaimRecord] [travelClaimRecord]).1.map
          (fun p => p.travelTime)) ≠ [travelClaimRecord.travelTime] ∧
    ((runStep (ratingOne sampleProfiles) testEnv.now
        [commentClaimRecord] [commentClaimRecord]).1.map
          (fun p => p.ratingComment)) ≠ [commentClaimRecord.ratingComment] := by
  decide

/-- C1 (amended): running the boot migration twice in succession under one
clock instant, starting from an empty store with no flags set (a fresh
install), or from a store holding one complete user record with no flags
set, leaves the stored array and the flags of the second run identical to
the first run's — no duplicate reference record, no double-appended anchor
record. -/
theorem bootMigration_idempotent_fresh :
    ((bootMigration testEnv sampleProfiles
        (.value (bootMigration testEnv sampleProfiles .absent MigFlags.none).stored)
        (bootMigration testEnv sampleProfiles .absent MigFlags.none).flags).stored =
      (bootMigration testEnv sampleProfiles .absent MigFlags.none).stored ∧
     (bootMigration testEnv sampleProfiles
        (.value (bootMigration testEnv sampleProfiles .absent MigFlags.none).stored)
        (bootMigration testEnv sampleProfiles .absent MigFlags.none).flags).flags =
      (bootMigration testEnv sampleProfiles .absent MigFlags.none).flags) ∧
    ((bootMigration testEnv sampleProfiles
        (.value (bootMigration testEnv sampleProfiles
          (.value [userProfileA]) MigFlags.none).stored)
        (bootMigration testEnv sampleProfiles
          (.value [userProfileA]) MigFlags.none).flags).stored =
      (bootMigration testEnv sampleProfiles
        (.value [userProfileA]) MigFlags.none).stored) := by decide

/-- C1 counterexample: the remote-subset flag is only set when that step
appends something.  Starting from a store that already holds every remote
reference record — one of them carrying the cleanup test-marker — with the
remote flag unset and the other flags set, the first run appends nothing
(flag stays unset) and the cleanup then deletes the marked remote record;
the second run therefore re-appends it, so the stored array after the
second run differs from the array after the first: the migration is not
idempotent over all initial store states. -/
theorem bootMigration_second_run_changes_store :
    (bootMigration testEnv sampleProfiles
        (.value (bootMigration testEnv sampleProfiles
          (.value [asdfRemote]) migFlagsPartial).stored)
        (bootMigration testEnv sampleProfiles
          (.value [asdfRemote]) migFlagsPartial).flags).stored ≠
      (bootMigration testEnv sampleProfiles
        (.value [asdfRemote]) migFlagsPartial).stored := by decide

/-- C9 (amended): no user-submitted record is ever stripped or discarded
for having missing optional fields: generated ids never carry the
`sample_` prefix, the reference-set replacement keeps every record whose id
lacks the prefix, and the cleanup keeps every record whose names lack the
test marker.  (Id-uniqueness of the resulting in-memory array can fail —
see the counterexample.) -/
theorem userRecords_never_stripped :
    (∀ (t : Nat) (r : String),
      jsStartsWith (generateProfileId t r) "sample_" = false) ∧
    (∀ samples loaded p, p ∈ loaded → jsStartsWith p.id "sample_" = false →
      p ∈ sampleReplacementStep samples loaded) ∧
    (∀ loaded stored p, p ∈ loaded → hasAsdf p = false →
      p ∈ (cleanupRun loaded stored).1) := by
  refine ⟨?_, ?_, ?_⟩
  · intro t r
    simp only [jsStartsWith, generateProfileId]
    rw [String.data_append, String.data_append, String.data_append]
    rw [show ("profile_".data : List Char) = 'p' :: "rofile_".data from rfl]
    simp [List.isPrefixOf]
  · intro samples loaded p hp hpre
    exact List.mem_append_left _ (List.mem_filter.mpr ⟨hp, by simp [hpre]⟩)
  · intro loaded stored p hp hno
    induction loaded generalizing stored with
    | nil => cases hp
    | cons q rest ih =>
      rcases List.mem_cons.mp hp with hq | hrest
      · subst hq
        simp only [cleanupRun, hno]
        simp
      · simp only [cleanupRun]
        by_cases hq : hasAsdf q = true
        · rw [if_pos hq]; exact ih _ hrest
        · rw [if_neg hq]
          exact List.mem_cons_of_mem _ (ih stored hrest)

/-- Witness for C9 (amended) at concrete inputs. -/
theorem userRecords_never_stripped_witness :
    jsStartsWith (generateProfileId 1700000000000 "abc123xyz") "sample_" = false ∧
    userProfileA ∈ sampleReplacementStep sampleProfiles [userProfileA] ∧
    userProfileA ∈ (cleanupRun [userProfileA] [userProfileA]).1 :=
  ⟨userRecords_never_stripped.1 1700000000000 "abc123xyz",
   userRecords_never_stripped.2.1 sampleProfiles [userProfileA] userProfileA
      (by decide) (by decide),
   userRecords_never_stripped.2.2 [userProfileA] [userProfileA] userProfileA
      (by decide) (by decide)⟩

/-- C9 counterexample: a stored PHYSICAL record carrying the id of a remote
reference record is not counted by the remote-subset backfill (which only
collects ids of remote records), so the remote reference record is appended
next to it: the resulting in-memory array contains two records with id
`sample_10` — the boot migration does duplicate a record. -/
theorem bootMigration_duplicate_ids_counterexample :
    ¬ ((bootMigration testEnv sampleProfiles
        (.value [physWithRemoteId]) migFlagsPartial).memory.map
          (fun p => p.id)).Nodup := by decide

/-- C8: the CSV import lower-cases every header name (`parseCSV`) but the
row loop reads camel-cased properties (`row.firstName`, `row.email`, ...),
so every row — valid or not — fails the required-fields check: a 3-row
batch whose headers are exactly the camel-cased columns the component's own
help text prescribes, with one row missing `email`, produces 0 profiles and
3 row errors instead of the documented 2 profiles and 1 error.  Feeding the
row loop the same rows keyed WITHOUT lower-casing produces exactly the
intended 2 created (and saved) profiles and 1 error citing row 3 — the
lower-casing is the slip. -/
theorem csvImport_header_case_bug :
    csvImport (fun _ => none) (fun i => "profile_1700_" ++ toString i)
        "2024-06-01T00:00:00.000Z" csvHeaderCells [csvRowA, csvRowB, csvRowC] [] =
      ([], ["Row 2: Missing required fields", "Row 3: Missing required fields",
            "Row 4: Missing required fields"], []) ∧
    ((processCSVRows (fun _ => none) (fun i => "profile_1700_" ++ toString i)
        "2024-06-01T00:00:00.000Z" 0
        [csvLoopKeys.zip csvRowA, csvLoopKeys.zip csvRowB,
         csvLoopKeys.zip csvRowC] []).1.length = 2 ∧
     (processCSVRows (fun _ => none) (fun i => "profile_1700_" ++ toString i)
        "2024-06-01T00:00:00.000Z" 0
        [csvLoopKeys.zip csvRowA, csvLoopKeys.zip csvRowB,
         csvLoopKeys.zip csvRowC] []).2.1 =
       ["Row 3: Missing required fields"] ∧
     (processCSVRows (fun _ => none) (fun i => "profile_1700_" ++ toString i)
        "2024-06-01T00:00:00.000Z" 0
        [csvLoopKeys.zip csvRowA, csvLoopKeys.zip csvRowB,
         csvLoopKeys.zip csvRowC] []).2.2.length = 2) := by decide

end InternshipMap
